import Mathlib

/-!
Shallow embedding of `asynctest/selector.py` (the asynctest selector module):
the `FileDescriptor` identity allocator, the `fd`/`isfilemock` duck-typing
helpers, the event-injection helpers (`_set_event_ready`, `set_read_ready`,
`set_write_ready`) and the `TestSelector` class wrapping an optional real
selector, together with the parts of the standard-library base class
`selectors._BaseSelectorImpl` that the module inherits from.

Python exceptions are modelled with an explicit error type, Python's duck
typing with an inductive datatype of the object shapes the module
distinguishes, and the class-level `FileDescriptor.next_fd` counter with
explicit state passing.
-/

set_option autoImplicit false

namespace Asynctest

/-- Python exceptions distinguished by the module: `AttributeError` (caught by
`isfilemock` and by the stdlib descriptor coercion), `ValueError` (raised by
`fd` and the stdlib coercion), `KeyError` (raised by dict lookups in the base
selector), and a stand-in for any other exception class. -/
inductive PyExc where
  | attributeError
  | valueError
  | keyError
  | otherError
  deriving DecidableEq, Repr

/-- Behaviour of an object's `fileno()` method when invoked: it may return a
`FileDescriptor`, return a plain `int`, or raise an exception. -/
inductive FilenoBehavior where
  | returnsFD (n : Int)
  | returnsInt (n : Int)
  | raises (e : PyExc)
  deriving DecidableEq, Repr

/-- The shapes of Python objects the module's duck typing distinguishes: a
`FileDescriptor` instance (a subclass of `int`), a plain `int`, an object
exposing a `fileno()` method with a given behaviour (this covers `FileMock`,
whose `fileno()` returns a stored `FileDescriptor`, as well as real file-like
objects), and an object with no `fileno` attribute at all. -/
inductive PyObj where
  | fileDescriptor (n : Int)
  | plainInt (n : Int)
  | objWithFileno (b : FilenoBehavior)
  | objNoFileno
  deriving DecidableEq, Repr

/-- A value usable as a key of the selector's `_fd_to_key` dict: either a
`FileDescriptor` object or a plain `int` descriptor number.  The tag records
the runtime class, which Python's `isinstance` and `__hash__` observe. -/
inductive FdValue where
  | fdVal (n : Int)
  | intVal (n : Int)
  deriving DecidableEq, Repr

/-- Conversion of a descriptor value to its integer value (`int(x)`). -/
def FdValue.toInt : FdValue → Int
  | .fdVal n => n
  | .intVal n => n

/-- Python `isinstance(x, FileDescriptor)` on a descriptor value. -/
def FdValue.isFdVal : FdValue → Bool
  | .fdVal _ => true
  | .intVal _ => false

/-- A Python hash value.  CPython hashes an `int` by a modular rule on its
value and a `str` by a (per-process seeded) string hash; the two spaces are
modelled as disjoint tags, matching the code's stated purpose of giving
`FileDescriptor` a hash distinct from the equal plain `int`. -/
inductive PyHash where
  | intHash (n : Int)
  | strHash (s : String)
  deriving DecidableEq, Repr

/-- Hash of a descriptor value.  `FileDescriptor.__hash__` is
`hash('__FileDescriptor_{}'.format(self))`; a plain `int` keeps the numeric
hash. -/
def pyHash : FdValue → PyHash
  | .fdVal n => .strHash ("__FileDescriptor_" ++ toString n)
  | .intVal n => .intHash n

/-- Python `==` on descriptor values: `FileDescriptor` inherits `int.__eq__`,
so comparison is by integer value only. -/
def pyEq (a b : FdValue) : Bool :=
  a.toInt == b.toInt

/-- Key equivalence used by a Python dict: two keys address the same slot
exactly when their hashes agree and they compare equal. -/
def sameKey (a b : FdValue) : Bool :=
  pyHash a == pyHash b && pyEq a b

/-- A registration entry, mirroring `selectors.SelectorKey` (a namedtuple of
`fileobj`, `fd`, `events`, `data`); `data` is kept abstract as an integer. -/
structure SelectorKey where
  fileobj : PyObj
  fd : FdValue
  events : Nat
  data : Int
  deriving DecidableEq, Repr

/-- The `_fd_to_key` dict of a selector, in insertion order. -/
abbrev PyDict := List (FdValue × SelectorKey)

/-- Dict lookup `d[k]` (as an `Option`), using Python's hash-and-eq key
equivalence. -/
def dictFind (d : PyDict) (k : FdValue) : Option SelectorKey :=
  (d.find? fun p => sameKey p.1 k).map (·.2)

/-- Dict assignment `d[k] = v`: replaces the matching entry in place, or
appends a new one (Python dicts preserve insertion order). -/
def dictInsert (d : PyDict) (k : FdValue) (v : SelectorKey) : PyDict :=
  if (d.find? fun p => sameKey p.1 k).isSome then
    d.map fun p => if sameKey p.1 k then (p.1, v) else p
  else
    d ++ [(k, v)]

/-- Dict deletion `del d[k]`. -/
def dictRemove (d : PyDict) (k : FdValue) : PyDict :=
  d.filter fun p => !(sameKey p.1 k)

/-- Invocation of `obj.fileno()`: attribute lookup followed by the call.  A
`FileDescriptor` or plain `int` has no `fileno` attribute, so the access
raises `AttributeError`; an object exposing the method behaves as its
`FilenoBehavior` prescribes. -/
def filenoCall : PyObj → Except PyExc FdValue
  | .fileDescriptor _ => .error .attributeError
  | .plainInt _ => .error .attributeError
  | .objNoFileno => .error .attributeError
  | .objWithFileno (.returnsFD n) => .ok (.fdVal n)
  | .objWithFileno (.returnsInt n) => .ok (.intVal n)
  | .objWithFileno (.raises e) => .error e

/-- The module-level function `fd(fileobj)`: inside a `try` block it returns
`fileobj` itself if it is a `FileDescriptor` instance and `fileobj.fileno()`
otherwise; any exception (`except Exception`) is replaced by `ValueError`. -/
def fd (fileobj : PyObj) : Except PyExc FdValue :=
  let body : Except PyExc FdValue :=
    match fileobj with
    | .fileDescriptor n => .ok (.fdVal n)
    | _ => filenoCall fileobj
  match body with
  | .ok v => .ok v
  | .error _ => .error .valueError

/-- The module-level predicate `isfilemock(obj)`: inside a `try` block it
evaluates `isinstance(obj, FileDescriptor) or isinstance(obj.fileno(),
FileDescriptor)` (with Python's short-circuit `or`); only `AttributeError`
is caught and turned into `False` — any other exception propagates. -/
def isfilemock (obj : PyObj) : Except PyExc Bool :=
  let body : Except PyExc Bool :=
    match obj with
    | .fileDescriptor _ => .ok true
    | _ =>
      match filenoCall obj with
      | .ok v => .ok v.isFdVal
      | .error e => .error e
  match body with
  | .ok b => .ok b
  | .error .attributeError => .ok false
  | .error e => .error e

/-- The stdlib helper `selectors._fileobj_to_fd(fileobj)`: an `int` is taken
as the descriptor directly, otherwise `int(fileobj.fileno())` is computed
with `AttributeError`/`TypeError`/`ValueError` converted to `ValueError`; a
negative result also raises `ValueError`.  Note a `FileDescriptor` is an
`int` instance. -/
def fileobj_to_fd (fileobj : PyObj) : Except PyExc Int :=
  let r : Except PyExc Int :=
    match fileobj with
    | .plainInt n => .ok n
    | .fileDescriptor n => .ok n
    | _ =>
      match filenoCall fileobj with
      | .ok v => .ok v.toInt
      | .error .attributeError => .error .valueError
      | .error .valueError => .error .valueError
      | .error e => .error e
  match r with
  | .ok n => if n < 0 then .error .valueError else .ok n
  | .error e => .error e

/-- The optional real selector wrapped by a `TestSelector`.  It is an external
collaborator (spec section 6), modelled at its interface boundary: each method
is a behaviour field giving the result of a call — a `SelectorKey`, `None`
(`.ok none`), or a raised exception.  `closeResult` is `some e` when
`close()` raises `e` and `none` when it returns normally. -/
structure RealSelector where
  registerResult : PyObj → Nat → Int → Except PyExc (Option SelectorKey)
  unregisterResult : PyObj → Except PyExc (Option SelectorKey)
  modifyResult : PyObj → Nat → Int → Except PyExc (Option SelectorKey)
  selectResult : Option Int → List (SelectorKey × Nat)
  closeResult : Option PyExc

/-- The state of a `TestSelector`: the optional wrapped real selector
(`self._selector`) and the unified descriptor-to-key dict (`self._fd_to_key`
inherited from `selectors._BaseSelectorImpl`). -/
structure TestSelector where
  selector : Option RealSelector
  fd_to_key : PyDict

/-- The event mask `selectors.EVENT_READ`. -/
def EVENT_READ : Nat := 1

/-- The event mask `selectors.EVENT_WRITE`. -/
def EVENT_WRITE : Nat := 2

/-- The stdlib base lookup `selectors._BaseSelectorImpl._fileobj_lookup`:
tries `_fileobj_to_fd` and, on `ValueError` only, falls back to an exhaustive
search of `_fd_to_key` for an entry whose `fileobj` is the argument (CPython
compares by object identity, modelled here by structural equality). -/
def BaseSelectorImpl.fileobj_lookup (s : TestSelector) (fileobj : PyObj) :
    Except PyExc FdValue :=
  match fileobj_to_fd fileobj with
  | .ok n => .ok (.intVal n)
  | .error .valueError =>
    match s.fd_to_key.find? (fun p => p.2.fileobj == fileobj) with
    | some p => .ok p.2.fd
    | none => .error .valueError
  | .error e => .error e

/-- `TestSelector._fileobj_lookup`: if `isfilemock(fileobj)` then `fd(fileobj)`
else the base class lookup.  An exception escaping `isfilemock` propagates. -/
def TestSelector.fileobj_lookup (s : TestSelector) (fileobj : PyObj) :
    Except PyExc FdValue :=
  match isfilemock fileobj with
  | .error e => .error e
  | .ok true => fd fileobj
  | .ok false => BaseSelectorImpl.fileobj_lookup s fileobj

/-- The stdlib `selectors._BaseSelectorImpl.register`: validates the event
mask (`ValueError` when `events` is `0` or has a bit outside
`EVENT_READ | EVENT_WRITE`, i.e. is at least `4`), builds a `SelectorKey`
from the virtual `_fileobj_lookup`, raises `KeyError` when the descriptor is
already registered, and stores the key in `_fd_to_key`. -/
def BaseSelectorImpl.register (s : TestSelector) (fileobj : PyObj)
    (events : Nat) (data : Int) : Except PyExc SelectorKey × TestSelector :=
  if events == 0 || 4 ≤ events then (.error .valueError, s)
  else
    match TestSelector.fileobj_lookup s fileobj with
    | .error e => (.error e, s)
    | .ok fdv =>
      let key : SelectorKey := ⟨fileobj, fdv, events, data⟩
      if (dictFind s.fd_to_key fdv).isSome then (.error .keyError, s)
      else (.ok key, { s with fd_to_key := dictInsert s.fd_to_key fdv key })

/-- The stdlib `selectors._BaseSelectorImpl.unregister`: pops the entry found
via the virtual `_fileobj_lookup`, raising `KeyError` when absent. -/
def BaseSelectorImpl.unregister (s : TestSelector) (fileobj : PyObj) :
    Except PyExc SelectorKey × TestSelector :=
  match TestSelector.fileobj_lookup s fileobj with
  | .error e => (.error e, s)
  | .ok fdv =>
    match dictFind s.fd_to_key fdv with
    | none => (.error .keyError, s)
    | some key => (.ok key, { s with fd_to_key := dictRemove s.fd_to_key fdv })

/-- `TestSelector.register`: a mock object, or any object when no real
selector is wrapped, is registered locally via the base class; otherwise the
call is forwarded to the real selector and, when it returns a (truthy) key,
the key is mirrored into the unified `_fd_to_key` dict. -/
def TestSelector.register (s : TestSelector) (fileobj : PyObj) (events : Nat)
    (data : Int) : Except PyExc (Option SelectorKey) × TestSelector :=
  match isfilemock fileobj with
  | .error e => (.error e, s)
  | .ok b =>
    match b, s.selector with
    | false, some sel =>
      match sel.registerResult fileobj events data with
      | .error e => (.error e, s)
      | .ok none => (.ok none, s)
      | .ok (some key) =>
        (.ok (some key), { s with fd_to_key := dictInsert s.fd_to_key key.fd key })
    | _, _ =>
      match BaseSelectorImpl.register s fileobj events data with
      | (.error e, s1) => (.error e, s1)
      | (.ok key, s1) => (.ok (some key), s1)

/-- `TestSelector.unregister`: mirror of `register` — local path via the base
class, real path forwarded to the real selector with the mirror entry removed
from the unified dict when the returned key's descriptor is present. -/
def TestSelector.unregister (s : TestSelector) (fileobj : PyObj) :
    Except PyExc (Option SelectorKey) × TestSelector :=
  match isfilemock fileobj with
  | .error e => (.error e, s)
  | .ok b =>
    match b, s.selector with
    | false, some sel =>
      match sel.unregisterResult fileobj with
      | .error e => (.error e, s)
      | .ok none => (.ok none, s)
      | .ok (some key) =>
        if (dictFind s.fd_to_key key.fd).isSome then
          (.ok (some key), { s with fd_to_key := dictRemove s.fd_to_key key.fd })
        else (.ok (some key), s)
    | _, _ =>
      match BaseSelectorImpl.unregister s fileobj with
      | (.error e, s1) => (.error e, s1)
      | (.ok key, s1) => (.ok (some key), s1)

/-- The stdlib `selectors._BaseSelectorImpl.modify`: looks up the current key
(`KeyError` when unregistered); when the event mask changes it re-registers
through the virtual `unregister`/`register` methods, when only the data
changes it replaces the key in place. -/
def BaseSelectorImpl.modify (s : TestSelector) (fileobj : PyObj) (events : Nat)
    (data : Int) : Except PyExc (Option SelectorKey) × TestSelector :=
  match TestSelector.fileobj_lookup s fileobj with
  | .error e => (.error e, s)
  | .ok fdv =>
    match dictFind s.fd_to_key fdv with
    | none => (.error .keyError, s)
    | some key =>
      if events ≠ key.events then
        match TestSelector.unregister s fileobj with
        | (.error e, s1) => (.error e, s1)
        | (.ok _, s1) => TestSelector.register s1 fileobj events data
      else if data ≠ key.data then
        let key1 : SelectorKey := { key with data := data }
        (.ok (some key1), { s with fd_to_key := dictInsert s.fd_to_key key1.fd key1 })
      else (.ok (some key), s)

/-- `TestSelector.modify`: local path via the base class; on the real path the
mirror entry for the descriptor is deleted from the unified dict first
(commented in the source: `del the key first because modify() fails if events
is incorrect`), then the call is forwarded to the real selector, and the
fresh key it returns is mirrored back. -/
def TestSelector.modify (s : TestSelector) (fileobj : PyObj) (events : Nat)
    (data : Int) : Except PyExc (Option SelectorKey) × TestSelector :=
  match isfilemock fileobj with
  | .error e => (.error e, s)
  | .ok b =>
    match b, s.selector with
    | false, some sel =>
      match TestSelector.fileobj_lookup s fileobj with
      | .error e => (.error e, s)
      | .ok fdv =>
        let s1 :=
          if (dictFind s.fd_to_key fdv).isSome then
            { s with fd_to_key := dictRemove s.fd_to_key fdv }
          else s
        match sel.modifyResult fileobj events data with
        | .error e => (.error e, s1)
        | .ok none => (.ok none, s1)
        | .ok (some key) =>
          (.ok (some key), { s1 with fd_to_key := dictInsert s1.fd_to_key key.fd key })
    | _, _ => BaseSelectorImpl.modify s fileobj events data

/-- `TestSelector.select`: returns the empty list when no real selector is
wrapped, otherwise delegates to the real selector and returns its result
verbatim. -/
def TestSelector.select (s : TestSelector) (timeout : Option Int) :
    List (SelectorKey × Nat) :=
  match s.selector with
  | none => []
  | some sel => sel.selectResult timeout

/-- `TestSelector.close`: closes the real selector when one is wrapped — an
exception it raises propagates immediately — and then calls the base class
`close`, which clears `_fd_to_key`.  The result pairs the raised exception
(if any) with the final state. -/
def TestSelector.close (s : TestSelector) : Option PyExc × TestSelector :=
  match s.selector with
  | some sel =>
    match sel.closeResult with
    | some e => (some e, s)
    | none => (none, { s with fd_to_key := [] })
  | none => (none, { s with fd_to_key := [] })

/-- `FileDescriptor.__new__`, with the class-level counter
`FileDescriptor.next_fd` passed explicitly.  With no argument the new object
takes the value `next_fd`; with an argument it takes the given value.  In
both cases `next_fd` is then set to `max(next_fd + 1, s + 1)` where `s` is
the new object's value.  The result is the pair (value, updated counter). -/
def FileDescriptor.new (next_fd : Int) (arg : Option Int) : Int × Int :=
  let s : Int :=
    match arg with
    | none => next_fd
    | some n => n
  (s, max (next_fd + 1) (s + 1))

/-- A call in a `FileDescriptor` construction sequence: `allocate` is
`FileDescriptor()` with no argument, `fromValue n` is `FileDescriptor(n)`. -/
inductive AllocCall where
  | allocate
  | fromValue (n : Int)
  deriving DecidableEq, Repr

/-- Runs a sequence of `FileDescriptor` constructions from a given counter
value, returning the list of constructed values and the final counter. -/
def runCalls : List AllocCall → Int → List Int × Int
  | [], next_fd => ([], next_fd)
  | c :: cs, next_fd =>
    let r := FileDescriptor.new next_fd
      (match c with
       | .allocate => none
       | .fromValue n => some n)
    let rest := runCalls cs r.2
    (r.1 :: rest.1, rest.2)

/-- The host event loop, modelled at its interface boundary (spec section 6):
`loop._selector` is the installed multiplexer, and the bulk event-processing
entry point `loop._process_events` is modelled by the log of (entry, events)
pairs fed to it — each pair fed makes the loop invoke the entry's registered
callback once. -/
structure Loop where
  selector : TestSelector
  processed : List (SelectorKey × Nat)

/-- The loop's `_process_events(event_list)` entry point: the given pairs are
handed to the loop's normal dispatch, appended to the log. -/
def Loop.process_events (loop : Loop) (events : List (SelectorKey × Nat)) : Loop :=
  { loop with processed := loop.processed ++ events }

/-- The module-level `_set_event_ready(fileobj, loop, event)`: looks the
object up in the loop's selector and, when its descriptor is currently in
`_fd_to_key`, feeds the single pair `(key, event)` through
`loop._process_events`; when it is not registered nothing happens. -/
def set_event_ready (fileobj : PyObj) (loop : Loop) (event : Nat) :
    Except PyExc Loop :=
  match TestSelector.fileobj_lookup loop.selector fileobj with
  | .error e => .error e
  | .ok fdv =>
    match dictFind loop.selector.fd_to_key fdv with
    | some key => .ok (loop.process_events [(key, event)])
    | none => .ok loop

/-- A callback handed to `loop.call_soon_threadsafe`: the thread-safe
scheduling itself is the loop's primitive; what the module determines is the
pending call — `_set_event_ready` applied to the object and an event mask —
which the loop will run at the start of its next dispatch cycle. -/
structure ScheduledCall where
  fileobj : PyObj
  event : Nat
  deriving DecidableEq, Repr

/-- `set_read_ready(fileobj, loop)`: schedules `_set_event_ready` with
`EVENT_READ` via `loop.call_soon_threadsafe`. -/
def set_read_ready (fileobj : PyObj) : ScheduledCall :=
  ⟨fileobj, EVENT_READ⟩

/-- `set_write_ready(fileobj, loop)`: schedules `_set_event_ready` with
`EVENT_WRITE` via `loop.call_soon_threadsafe`. -/
def set_write_ready (fileobj : PyObj) : ScheduledCall :=
  ⟨fileobj, EVENT_WRITE⟩

/-- Running a scheduled call once the loop reaches it: executes
`_set_event_ready` against the loop's state at that moment. -/
def ScheduledCall.run (c : ScheduledCall) (loop : Loop) : Except PyExc Loop :=
  set_event_ready c.fileobj loop c.event

@[simp]
theorem sameKey_refl (a : FdValue) : sameKey a a = true := by
  simp [sameKey, pyEq]

@[simp]
theorem sameKey_fd_int (m k : Int) : sameKey (.fdVal m) (.intVal k) = false := by
  simp [sameKey, pyHash]

@[simp]
theorem sameKey_int_fd (m k : Int) : sameKey (.intVal m) (.fdVal k) = false := by
  simp [sameKey, pyHash]

theorem dictFind_dictRemove_self (d : PyDict) (k : FdValue) :
    dictFind (dictRemove d k) k = none := by
  simp only [dictFind, dictRemove, Option.map_eq_none']
  rw [List.find?_eq_none]
  intro p hp
  rcases List.mem_filter.mp hp with ⟨-, h⟩
  simpa using h

theorem new_snd_gt (next_fd : Int) (arg : Option Int) :
    next_fd < (FileDescriptor.new next_fd arg).2 :=
  lt_of_lt_of_le (by omega) (le_max_left _ _)

theorem new_fst_lt_snd (next_fd : Int) (arg : Option Int) :
    (FileDescriptor.new next_fd arg).1 < (FileDescriptor.new next_fd arg).2 := by
  cases arg <;> simp only [FileDescriptor.new] <;>
    exact lt_of_lt_of_le (by omega) (le_max_right _ _)

theorem runCalls_watermark_le (cs : List AllocCall) (next_fd : Int) :
    next_fd ≤ (runCalls cs next_fd).2 := by
  induction cs generalizing next_fd with
  | nil => simp [runCalls]
  | cons c cs ih =>
    exact le_trans (le_of_lt (new_snd_gt next_fd _)) (ih _)

theorem runCalls_returns_lt (cs : List AllocCall) (next_fd : Int) :
    ∀ v ∈ (runCalls cs next_fd).1, v < (runCalls cs next_fd).2 := by
  induction cs generalizing next_fd with
  | nil => simp [runCalls]
  | cons c cs ih =>
    intro v hv
    simp only [runCalls, List.mem_cons] at hv ⊢
    rcases hv with rfl | hv
    · exact lt_of_lt_of_le (new_fst_lt_snd next_fd _) (runCalls_watermark_le cs _)
    · exact ih _ v hv

theorem runCalls_supplied_lt (cs : List AllocCall) (next_fd : Int) :
    ∀ m, AllocCall.fromValue m ∈ cs → m < (runCalls cs next_fd).2 := by
  induction cs generalizing next_fd with
  | nil => simp
  | cons c cs ih =>
    intro m hm
    simp only [List.mem_cons] at hm
    rcases hm with rfl | hm
    · have h1 : m < (FileDescriptor.new next_fd (some m)).2 := by
        simp only [FileDescriptor.new]
        exact lt_of_lt_of_le (by omega) (le_max_right _ _)
      exact lt_of_lt_of_le h1 (runCalls_watermark_le cs _)
    · exact ih _ m hm

theorem runCalls_append (a b : List AllocCall) (next_fd : Int) :
    runCalls (a ++ b) next_fd =
      ((runCalls a next_fd).1 ++ (runCalls b (runCalls a next_fd).2).1,
       (runCalls b (runCalls a next_fd).2).2) := by
  induction a generalizing next_fd with
  | nil => simp [runCalls]
  | cons c cs ih => simp [runCalls, ih]

/-- C2 counterexample: in the call sequence `FileDescriptor(5);
FileDescriptor(5)` the second returned identity has the same integer value 5
as the identity returned earlier and as the integer supplied earlier, so the
returned identities are not pairwise distinct in value — refuting the claim
that every returned identity is distinct from every earlier one and every
earlier supplied `n`. -/
theorem c2_alloc_counterexample :
    (runCalls [AllocCall.fromValue 5, AllocCall.fromValue 5] 0).1 = [5, 5] ∧
    ¬ (runCalls [AllocCall.fromValue 5, AllocCall.fromValue 5] 0).1.Nodup :=
  ⟨by decide, by decide⟩

/-- C2 amended: only `allocate()` results are guaranteed fresh — an
`allocate()` call appended to any sequence returns exactly the current
watermark, which is strictly greater than every identity returned earlier in
the sequence and every integer supplied earlier to `fromValue`; `fromValue(n)`
returns `n` itself and may repeat earlier values. -/
theorem c2_alloc_amended (pre : List AllocCall) (next_fd : Int) :
    (runCalls (pre ++ [AllocCall.allocate]) next_fd).1 =
      (runCalls pre next_fd).1 ++ [(runCalls pre next_fd).2] ∧
    (∀ v ∈ (runCalls pre next_fd).1, v < (runCalls pre next_fd).2) ∧
    (∀ m, AllocCall.fromValue m ∈ pre → m < (runCalls pre next_fd).2) := by
  refine ⟨?_, runCalls_returns_lt pre next_fd, runCalls_supplied_lt pre next_fd⟩
  rw [runCalls_append]
  simp [runCalls, FileDescriptor.new]

/-- C2 witness: after the sequence `FileDescriptor(3)` starting from counter
0 a subsequent `allocate()` returns the watermark 4, with the earlier return
value 3 and the earlier supplied 3 both strictly below it. -/
theorem c2_alloc_witness :
    (runCalls ([AllocCall.fromValue 3] ++ [AllocCall.allocate]) 0).1 =
      (runCalls [AllocCall.fromValue 3] 0).1 ++ [(runCalls [AllocCall.fromValue 3] 0).2] ∧
    (3 : Int) < (runCalls [AllocCall.fromValue 3] 0).2 :=
  ⟨(c2_alloc_amended [AllocCall.fromValue 3] 0).1,
   (c2_alloc_amended [AllocCall.fromValue 3] 0).2.2 3 (by decide)⟩

/-- C9 counterexample: `FileDescriptor(-5)` from counter 0 is not rejected —
it constructs the identity of value `-5` and advances the counter to 1. -/
theorem c9_negative_counterexample :
    FileDescriptor.new 0 (some (-5)) = (-5, 1) := by decide

/-- C9 amended: constructing an identity from a negative integer `n`
succeeds, returning an identity of value `n` (no rejection), and still
advances the counter strictly past both `n` and its previous value. -/
theorem c9_negative_amended (next_fd n : Int) (_h : n < 0) :
    (FileDescriptor.new next_fd (some n)).1 = n ∧
    n < (FileDescriptor.new next_fd (some n)).2 ∧
    next_fd < (FileDescriptor.new next_fd (some n)).2 := by
  refine ⟨rfl, ?_, new_snd_gt next_fd _⟩
  simp only [FileDescriptor.new]
  exact lt_of_lt_of_le (by omega) (le_max_right _ _)

/-- C9 witness: the amended statement evaluated at `FileDescriptor(-5)` from
counter 0. -/
theorem c9_negative_witness :
    (FileDescriptor.new 0 (some (-5))).1 = -5 ∧
    (-5 : Int) < (FileDescriptor.new 0 (some (-5))).2 ∧
    (0 : Int) < (FileDescriptor.new 0 (some (-5))).2 :=
  c9_negative_amended 0 (-5) (by decide)

/-- C3: a `FileDescriptor` of value `n` and a plain `int` of value `n`
compare equal under Python value equality but have different hashes, so a
single dict can hold one entry under each; both stored values remain
retrievable under their own key. -/
theorem c3_hash_distinct_keys (n : Int) (k1 k2 : SelectorKey) :
    pyEq (.fdVal n) (.intVal n) = true ∧
    pyHash (.fdVal n) ≠ pyHash (.intVal n) ∧
    dictFind (dictInsert (dictInsert [] (.fdVal n) k1) (.intVal n) k2) (.fdVal n) =
      some k1 ∧
    dictFind (dictInsert (dictInsert [] (.fdVal n) k1) (.intVal n) k2) (.intVal n) =
      some k2 := by
  refine ⟨by simp [pyEq, FdValue.toInt], by simp [pyHash], ?_, ?_⟩ <;>
    simp [dictFind, dictInsert, List.find?]

/-- C7: the resolution function `fd` returns a `FileDescriptor` argument
itself, returns the `fileno()` result of any object exposing the method, and
raises `ValueError` whenever neither is possible — in particular for every
plain integer argument, for objects without `fileno`, and when `fileno()`
raises. -/
theorem c7_fd_resolution (n k : Int) (e : PyExc) :
    fd (.fileDescriptor n) = .ok (.fdVal n) ∧
    fd (.objWithFileno (.returnsFD k)) = .ok (.fdVal k) ∧
    fd (.objWithFileno (.returnsInt k)) = .ok (.intVal k) ∧
    fd (.objWithFileno (.raises e)) = .error .valueError ∧
    fd .objNoFileno = .error .valueError ∧
    fd (.plainInt n) = .error .valueError :=
  ⟨rfl, rfl, rfl, rfl, rfl, rfl⟩

/-- C8 counterexample: `isfilemock` is not exception-free — on an object
whose `fileno()` raises `ValueError`, `isfilemock` propagates the exception
instead of returning a boolean, because only `AttributeError` is caught. -/
theorem c8_isfilemock_counterexample :
    isfilemock (.objWithFileno (.raises .valueError)) = .error .valueError := rfl

/-- C8 amended: `isfilemock` returns true for a `FileDescriptor` and for an
object whose `fileno()` returns one, returns false for objects whose value or
`fileno()` is a plain integer and for objects where the identity query fails
with `AttributeError` (including objects with no `fileno` at all), but any
other exception raised by `fileno()` propagates to the caller. -/
theorem c8_isfilemock_amended (n k : Int) :
    isfilemock (.fileDescriptor n) = .ok true ∧
    isfilemock (.objWithFileno (.returnsFD k)) = .ok true ∧
    isfilemock (.objWithFileno (.returnsInt k)) = .ok false ∧
    isfilemock (.plainInt n) = .ok false ∧
    isfilemock .objNoFileno = .ok false ∧
    isfilemock (.objWithFileno (.raises .attributeError)) = .ok false ∧
    isfilemock (.objWithFileno (.raises .keyError)) = .error .keyError ∧
    isfilemock (.objWithFileno (.raises .otherError)) = .error .otherError :=
  ⟨rfl, rfl, rfl, rfl, rfl, rfl, rfl, rfl⟩

/-- A wrapped real selector whose `close()` raises, used to exercise the
error path of `TestSelector.close`. -/
def closeErrorBackend : RealSelector where
  registerResult := fun _ _ _ => .error .valueError
  unregisterResult := fun _ => .error .valueError
  modifyResult := fun _ _ _ => .error .valueError
  selectResult := fun _ => []
  closeResult := some .otherError

/-- A selector state wrapping `closeErrorBackend` with one registration in
its unified dict. -/
def closeErrorState : TestSelector :=
  ⟨some closeErrorBackend, [(.fdVal 0, ⟨.fileDescriptor 0, .fdVal 0, 1, 0⟩)]⟩

/-- C1 counterexample: with a real backend whose `close()` raises,
`TestSelector.close` surfaces the error but does not clear the unified
descriptor-to-key dict — the registration is still present afterwards,
refuting the claim that local bookkeeping is cleared unconditionally. -/
theorem c1_close_counterexample :
    (TestSelector.close closeErrorState).1 = some .otherError ∧
    (TestSelector.close closeErrorState).2.fd_to_key =
      [(.fdVal 0, ⟨.fileDescriptor 0, .fdVal 0, 1, 0⟩)] ∧
    (TestSelector.close closeErrorState).2.fd_to_key ≠ [] :=
  ⟨rfl, rfl, by simp [closeErrorState, closeErrorBackend, TestSelector.close]⟩

/-- C1 amended: `close()` clears the unified dict and returns normally when no
real backend is configured or when the backend's `close()` succeeds; when the
backend's `close()` raises, the error is surfaced to the caller but the local
bookkeeping is left unchanged (the base-class cleanup is skipped). -/
theorem c1_close_amended (s : TestSelector) :
    (s.selector = none →
      TestSelector.close s = (none, { s with fd_to_key := [] })) ∧
    (∀ sel, s.selector = some sel → sel.closeResult = none →
      TestSelector.close s = (none, { s with fd_to_key := [] })) ∧
    (∀ sel e, s.selector = some sel → sel.closeResult = some e →
      TestSelector.close s = (some e, s)) := by
  refine ⟨fun h => ?_, fun sel h hc => ?_, fun sel e h hc => ?_⟩
  · simp [TestSelector.close, h]
  · simp [TestSelector.close, h, hc]
  · simp [TestSelector.close, h, hc]

/-- C1 witness: the amended statement evaluated on a backend-less selector
holding one registration — `close` returns no error and empties the dict. -/
theorem c1_close_witness :
    TestSelector.close ⟨none, [(.fdVal 2, ⟨.fileDescriptor 2, .fdVal 2, 1, 0⟩)]⟩ =
      (none, ⟨none, []⟩) :=
  (c1_close_amended ⟨none, [(.fdVal 2, ⟨.fileDescriptor 2, .fdVal 2, 1, 0⟩)]⟩).1 rfl

/-- C4: `select` returns the empty result set whenever no real backend is
configured, whatever is registered and whatever the timeout; with a real
backend it returns the backend's result verbatim, independently of the local
registrations — synthetic registrations never influence nor appear in the
poll result beyond what the backend itself reports. -/
theorem c4_select_delegation (m1 m2 : PyDict) (sel : RealSelector) (t : Option Int) :
    TestSelector.select ⟨none, m1⟩ t = [] ∧
    TestSelector.select ⟨some sel, m1⟩ t = sel.selectResult t ∧
    TestSelector.select ⟨some sel, m1⟩ t = TestSelector.select ⟨some sel, m2⟩ t :=
  ⟨rfl, rfl, rfl⟩

/-- C5: when the task scheduled by `set_read_ready`/`set_write_ready` runs,
then — provided the object's descriptor resolves — if the descriptor is still
registered in the loop's selector, exactly one `(key, event)` pair with the
requested direction is fed through the loop's `_process_events` entry point,
and if it is no longer registered the injection is a silent no-op: no error
and no event fed. -/
theorem c5_event_injection (fileobj : PyObj) (loop : Loop) (fdv : FdValue)
    (hlook : TestSelector.fileobj_lookup loop.selector fileobj = .ok fdv) :
    (∀ key, dictFind loop.selector.fd_to_key fdv = some key →
      (set_read_ready fileobj).run loop =
        .ok { loop with processed := loop.processed ++ [(key, EVENT_READ)] } ∧
      (set_write_ready fileobj).run loop =
        .ok { loop with processed := loop.processed ++ [(key, EVENT_WRITE)] }) ∧
    (dictFind loop.selector.fd_to_key fdv = none →
      (set_read_ready fileobj).run loop = .ok loop ∧
      (set_write_ready fileobj).run loop = .ok loop) := by
  constructor
  · intro key hk
    constructor <;>
      simp [ScheduledCall.run, set_read_ready, set_write_ready, set_event_ready,
        hlook, hk, Loop.process_events]
  · intro hk
    constructor <;>
      simp [ScheduledCall.run, set_read_ready, set_write_ready, set_event_ready,
        hlook, hk]

/-- C5 witness: a loop whose selector holds one synthetic registration; the
read-ready task feeds exactly the pair (registered key, `EVENT_READ`) into
the dispatch log. -/
theorem c5_event_injection_witness :
    (set_read_ready (.fileDescriptor 0)).run
        ⟨⟨none, [(.fdVal 0, ⟨.fileDescriptor 0, .fdVal 0, 1, 0⟩)]⟩, []⟩ =
      .ok ⟨⟨none, [(.fdVal 0, ⟨.fileDescriptor 0, .fdVal 0, 1, 0⟩)]⟩,
           [(⟨.fileDescriptor 0, .fdVal 0, 1, 0⟩, EVENT_READ)]⟩ :=
  ((c5_event_injection (.fileDescriptor 0)
      ⟨⟨none, [(.fdVal 0, ⟨.fileDescriptor 0, .fdVal 0, 1, 0⟩)]⟩, []⟩ (.fdVal 0)
      rfl).1 ⟨.fileDescriptor 0, .fdVal 0, 1, 0⟩ (by decide)).1

/-- C6: on a real-backed registration (non-mock object, real backend
present), `modify` deletes the descriptor's mirror entry from the unified
dict strictly before forwarding to the real backend — witnessed by the mirror
being absent from the dict the backend call runs against, and by the mirror
staying deleted even when the backend raises — and mirrors the backend's
freshly returned key back into the dict afterwards. -/
theorem c6_modify_clear_then_forward (s : TestSelector) (sel : RealSelector)
    (fileobj : PyObj) (events : Nat) (data : Int) (fdv : FdValue)
    (oldKey : SelectorKey)
    (hmock : isfilemock fileobj = .ok false)
    (hsel : s.selector = some sel)
    (hlook : TestSelector.fileobj_lookup s fileobj = .ok fdv)
    (hreg : dictFind s.fd_to_key fdv = some oldKey) :
    dictFind (dictRemove s.fd_to_key fdv) fdv = none ∧
    (∀ e, sel.modifyResult fileobj events data = .error e →
      TestSelector.modify s fileobj events data =
        (.error e, { s with fd_to_key := dictRemove s.fd_to_key fdv })) ∧
    (∀ key, sel.modifyResult fileobj events data = .ok (some key) →
      TestSelector.modify s fileobj events data =
        (.ok (some key),
         { s with fd_to_key := dictInsert (dictRemove s.fd_to_key fdv) key.fd key })) := by
  refine ⟨dictFind_dictRemove_self _ _, fun e he => ?_, fun key hk => ?_⟩
  · simp [TestSelector.modify, hmock, hsel, hlook, hreg, he]
  · simp [TestSelector.modify, hmock, hsel, hlook, hreg, hk]

/-- A wrapped real selector whose `modify()` returns a fresh key for the
descriptor 7. -/
def modifyBackend : RealSelector where
  registerResult := fun _ _ _ => .error .valueError
  unregisterResult := fun _ => .error .valueError
  modifyResult := fun _ _ _ => .ok (some ⟨.plainInt 7, .intVal 7, 2, 5⟩)
  selectResult := fun _ => []
  closeResult := none

/-- A selector state wrapping `modifyBackend` with a stale mirror entry for
the real descriptor 7. -/
def modifyState : TestSelector :=
  ⟨some modifyBackend, [(.intVal 7, ⟨.plainInt 7, .intVal 7, 1, 0⟩)]⟩

/-- C6 witness: modifying the real-backed registration of descriptor 7
replaces the stale mirror with the backend's fresh key, and the dict the
backend call ran against had no entry for descriptor 7. -/
theorem c6_modify_witness :
    TestSelector.modify modifyState (.plainInt 7) 2 5 =
      (.ok (some ⟨.plainInt 7, .intVal 7, 2, 5⟩),
       { modifyState with fd_to_key := [(.intVal 7, ⟨.plainInt 7, .intVal 7, 2, 5⟩)] }) ∧
    dictFind (dictRemove modifyState.fd_to_key (.intVal 7)) (.intVal 7) = none := by
  have h := c6_modify_clear_then_forward modifyState modifyBackend (.plainInt 7) 2 5
    (.intVal 7) ⟨.plainInt 7, .intVal 7, 1, 0⟩ rfl rfl rfl (by decide)
  exact ⟨h.2.2 ⟨.plainInt 7, .intVal 7, 2, 5⟩ rfl, h.1⟩

/-- C10: a plain integer is never classified as a mock — `isfilemock` returns
false on it whatever its value — so `_fileobj_lookup` routes it through the
base-class (real-handle) lookup; its resolved key `intVal n` never matches a
dict entry stored under a synthetic `fdVal m` key, even for equal values, and
for a non-negative integer the base lookup resolves to the integer itself. -/
theorem c10_plain_int_routing (n m : Int) (s : TestSelector) :
    isfilemock (.plainInt n) = .ok false ∧
    TestSelector.fileobj_lookup s (.plainInt n) =
      BaseSelectorImpl.fileobj_lookup s (.plainInt n) ∧
    sameKey (.intVal n) (.fdVal m) = false ∧
    (0 ≤ n → BaseSelectorImpl.fileobj_lookup s (.plainInt n) = .ok (.intVal n)) := by
  refine ⟨rfl, rfl, sameKey_int_fd n m, fun h => ?_⟩
  simp [BaseSelectorImpl.fileobj_lookup, fileobj_to_fd, not_lt.mpr h]

/-- C10 witness: the bare integer 7 resolves through the base lookup to
itself. -/
theorem c10_plain_int_routing_witness :
    BaseSelectorImpl.fileobj_lookup ⟨none, []⟩ (.plainInt 7) = .ok (.intVal 7) :=
  (c10_plain_int_routing 7 0 ⟨none, []⟩).2.2.2 (by decide)

end Asynctest
